import Mathlib

/-!
Verification of the SFSE core against its specification.

The development shallowly embeds the C++ sources:
  * `src/sfse_common/Utilities.cpp` — PE image walking
    (`getIATAddr`, `getResourceLibraryProcAddress`, `is64BitDLL`),
    RTTI class-name decoding (`getObjectClassName`) and INI configuration
    lookup (`getConfigOption`, `getConfigOption_u32`);
  * `src/sfse/sfse.cpp` — the entry-point interception layer
    (`installBaseHooks`, the two hook functions, `SFSE_Preinit`,
    `SFSE_Initialize`).

Machine integers are modelled as `Nat` with explicit `% 2 ^ w` where
wrap-around matters; memory is modelled as typed read maps; fallible
pointer chasing (the `__try`-guarded RTTI walk) reads through
`Option`-valued maps.
-/

namespace SFSE

/-- Typed read-only view of a mapped process image.  `u16at a` is the
little-endian 16-bit load at address `a`, similarly for 32 and 64 bits;
`cstrAt a` is the NUL-terminated string starting at `a`.  The bound fields
record that a `w`-bit load yields a value below `2 ^ w`. -/
structure Mem where
  u16at : Nat → Nat
  u32at : Nat → Nat
  u64at : Nat → Nat
  cstrAt : Nat → String
  u16at_lt : ∀ a, u16at a < 2 ^ 16
  u32at_lt : ∀ a, u32at a < 2 ^ 32
  u64at_lt : ∀ a, u64at a < 2 ^ 64

/-- ASCII lower-casing of one character, as the C runtime's `tolower`
behaves in the default locale (used by `_stricmp`). -/
def toLowerAscii (c : Char) : Char :=
  if 'A' ≤ c ∧ c ≤ 'Z' then Char.ofNat (c.toNat + 32) else c

/-- Predicate `_stricmp(a, b) == 0`: case-insensitive ASCII string equality. -/
def stricmpEq (a b : String) : Bool :=
  a.data.map toLowerAscii == b.data.map toLowerAscii

/-- Models `uintptr_t(module) & ~3` for an arbitrary-width natural: clear the two
lowest bits. -/
def clearLow2 (p : Nat) : Nat := p - p % 4

/-- Computes `base + dosHeader->e_lfanew`: the `IMAGE_NT_HEADERS` address.
`e_lfanew` sits at offset `0x3C` of the DOS header. -/
def ntHeaderAddr (mem : Mem) (base : Nat) : Nat :=
  base + mem.u32at (base + 0x3C)

/-- Address of the export directory:
`base + OptionalHeader.DataDirectory[IMAGE_DIRECTORY_ENTRY_EXPORT].VirtualAddress`
(offset `0x88` into `IMAGE_NT_HEADERS64`). -/
def exportTableAddr (mem : Mem) (base : Nat) : Nat :=
  base + mem.u32at (ntHeaderAddr mem base + 0x88)

/-- Reads `exportTable->NumberOfFunctions` (offset `0x14`). -/
def expNumFuncs (mem : Mem) (base : Nat) : Nat :=
  mem.u32at (exportTableAddr mem base + 0x14)

/-- Reads `exportTable->NumberOfNames` (offset `0x18`). -/
def expNumNames (mem : Mem) (base : Nat) : Nat :=
  mem.u32at (exportTableAddr mem base + 0x18)

/-- Computes `base + exportTable->AddressOfFunctions` (offset `0x1C`): the RVA
array of export addresses. -/
def expFuncsAddr (mem : Mem) (base : Nat) : Nat :=
  base + mem.u32at (exportTableAddr mem base + 0x1C)

/-- Computes `base + exportTable->AddressOfNames` (offset `0x20`): the RVA array of
export names. -/
def expNamesAddr (mem : Mem) (base : Nat) : Nat :=
  base + mem.u32at (exportTableAddr mem base + 0x20)

/-- Computes `base + exportTable->AddressOfNameOrdinals` (offset `0x24`): the
16-bit index array into the name table. -/
def expOrdsAddr (mem : Mem) (base : Nat) : Nat :=
  base + mem.u32at (exportTableAddr mem base + 0x24)

/-- One iteration's match test of the export scan in
`getResourceLibraryProcAddress`: entry `i` has
`exportNameOrdinals[i] < NumberOfNames` and the name at
`base + exportNames[nameOrdinal]` equals `exportName` (case-sensitive
`strcmp`). -/
def expMatchAt (mem : Mem) (base : Nat) (exportName : String) (i : Nat) : Prop :=
  mem.u16at (expOrdsAddr mem base + 2 * i) < expNumNames mem base ∧
    mem.cstrAt (base + mem.u32at (expNamesAddr mem base +
      4 * mem.u16at (expOrdsAddr mem base + 2 * i))) = exportName

instance (mem : Mem) (base : Nat) (exportName : String) (i : Nat) :
    Decidable (expMatchAt mem base exportName i) :=
  inferInstanceAs (Decidable (_ ∧ _))

/-- The `for (u32 i = 0; i < exportTable->NumberOfFunctions; i++)` loop of
`getResourceLibraryProcAddress`, recursing on the remaining iteration
count `rem`; on the first matching entry it resolves
`base + exportAddresses[i]` and breaks. -/
def findExportLoop (mem : Mem) (base : Nat) (exportName : String) :
    Nat → Nat → Option Nat
  | _, 0 => none
  | i, rem + 1 =>
    if expMatchAt mem base exportName i then
      some (base + mem.u32at (expFuncsAddr mem base + 4 * i))
    else
      findExportLoop mem base exportName (i + 1) rem

/-- Embeds `getResourceLibraryProcAddress(module, exportName)`
(src/sfse_common/Utilities.cpp, lines 221–254): masks the low two bits of
the module pointer, walks the header chain to the export directory and
linearly scans its parallel arrays; `none` models `nullptr`. -/
def getResourceLibraryProcAddress (mem : Mem) (module : Nat)
    (exportName : String) : Option Nat :=
  let base := clearLow2 module
  findExportLoop mem base exportName 0 (expNumFuncs mem base)

/-- Embeds `is64BitDLL(module)` (src/sfse_common/Utilities.cpp, lines 262–270):
masks the low two bits of the module pointer and tests
`ntHeader->FileHeader.Machine == IMAGE_FILE_MACHINE_AMD64` (`0x8664`,
a 16-bit load at offset 4 of the NT headers). -/
def is64BitDLL (mem : Mem) (module : Nat) : Bool :=
  let base := clearLow2 module
  mem.u16at (ntHeaderAddr mem base + 4) == 0x8664

/-- Computes `base + exportAddresses[i]`: the absolute address the export scan
resolves for entry `i`. -/
def exportEntryAddr (mem : Mem) (base : Nat) (i : Nat) : Nat :=
  base + mem.u32at (expFuncsAddr mem base + 4 * i)

/-- The export directory of the module at (masked) base `clearLow2 module`
contains an entry named `exportName` at index `i`: `i` is within
`NumberOfFunctions` and the scan's match test holds there. -/
def exportEntryNamed (mem : Mem) (module : Nat) (exportName : String)
    (i : Nat) : Prop :=
  i < expNumFuncs mem (clearLow2 module) ∧
    expMatchAt mem (clearLow2 module) exportName i

instance (mem : Mem) (module : Nat) (exportName : String) (i : Nat) :
    Decidable (exportEntryNamed mem module exportName i) :=
  inferInstanceAs (Decidable (_ ∧ _))

/-- Finite association map with a default, used to build concrete test
images. -/
def assocD (tbl : List (Nat × Nat)) (d : Nat) (a : Nat) : Nat :=
  match tbl.find? (fun p => p.1 == a) with
  | some p => p.2
  | none => d

/-- String association map with default `""`, used for the NUL-terminated
strings of concrete test images. -/
def assocStr (tbl : List (Nat × String)) (a : Nat) : String :=
  match tbl.find? (fun p => p.1 == a) with
  | some p => p.2
  | none => ""

/-- Address of the import directory:
`base + OptionalHeader.DataDirectory[IMAGE_DIRECTORY_ENTRY_IMPORT].VirtualAddress`
(offset `0x90` into `IMAGE_NT_HEADERS64`).  `getIATAddr` does not mask the
low bits of the module pointer. -/
def importTableAddr (mem : Mem) (base : Nat) : Nat :=
  base + mem.u32at (ntHeaderAddr mem base + 0x90)

/-- The inner thunk loop of `getIATAddr`
(`for (; thunkData->u1.Ordinal; ++thunkData, ++iat)`): walks the
`OriginalFirstThunk` array at `thunkBase` in lock-step with the IAT at
`iatBase`; stops at a zero thunk; skips snap-by-ordinal entries (high bit
of the 64-bit thunk); on a case-insensitive name match against
`IMAGE_IMPORT_BY_NAME::Name` (offset 2 past the thunk's target) returns
the address of the IAT cell itself.  `fuel` bounds the iteration count of
the source's memory-terminated loop. -/
def impThunkScan (mem : Mem) (base thunkBase iatBase : Nat)
    (searchImportName : String) : Nat → Nat → Option Nat
  | _, 0 => none
  | k, fuel + 1 =>
    let ordinal := mem.u64at (thunkBase + 8 * k)
    if ordinal = 0 then none
    else if ordinal < 2 ^ 63 ∧
        stricmpEq (mem.cstrAt (base + ordinal + 2)) searchImportName = true then
      some (iatBase + 8 * k)
    else impThunkScan mem base thunkBase iatBase searchImportName (k + 1) fuel

/-- The outer descriptor loop of `getIATAddr`
(`for (; importTable->Characteristics; ++importTable)`): descriptors are
20 bytes; `Characteristics` and `OriginalFirstThunk` share offset 0,
`Name` is at offset 12, `FirstThunk` at offset 16.  On the first
case-insensitive DLL-name match the inner thunk scan's result is returned
directly (the source `return`s out of the loop either way). -/
def impDescScan (mem : Mem) (base importTable : Nat)
    (searchDllName searchImportName : String) (fuelT : Nat) :
    Nat → Nat → Option Nat
  | _, 0 => none
  | d, fuelD + 1 =>
    let desc := importTable + 20 * d
    if mem.u32at desc = 0 then none
    else if stricmpEq (mem.cstrAt (base + mem.u32at (desc + 12)))
        searchDllName = true then
      impThunkScan mem base (base + mem.u32at desc)
        (base + mem.u32at (desc + 16)) searchImportName 0 fuelT
    else impDescScan mem base importTable searchDllName searchImportName
      fuelT (d + 1) fuelD

/-- Embeds `getIATAddr(module, searchDllName, searchImportName)`
(src/sfse_common/Utilities.cpp, lines 174–212).  `fuelD`/`fuelT` bound the
descriptor and thunk loops, which the source terminates on in-memory
sentinels. -/
def getIATAddr (mem : Mem) (module : Nat)
    (searchDllName searchImportName : String) (fuelD fuelT : Nat) :
    Option Nat :=
  impDescScan mem module (importTableAddr mem module) searchDllName
    searchImportName fuelT 0 fuelD

/-- Descriptor `d` lies inside the import directory: no descriptor up to
and including `d` is the zero terminator. -/
def importDescReachable (mem : Mem) (base d : Nat) : Prop :=
  ∀ d', d' ≤ d → mem.u32at (importTableAddr mem base + 20 * d') ≠ 0

/-- Thunk `k` lies inside a descriptor's thunk array rooted at
`thunkBase`: no thunk up to and including `k` is the zero terminator. -/
def importThunkReachable (mem : Mem) (thunkBase k : Nat) : Prop :=
  ∀ k', k' ≤ k → mem.u64at (thunkBase + 8 * k') ≠ 0

instance (mem : Mem) (base d : Nat) :
    Decidable (importDescReachable mem base d) :=
  Nat.decidableBallLE d _

instance (mem : Mem) (thunkBase k : Nat) :
    Decidable (importThunkReachable mem thunkBase k) :=
  Nat.decidableBallLE k _

/-- Address of descriptor `d`'s `OriginalFirstThunk` array:
`base + importTable[d].OriginalFirstThunk`. -/
def impThunkArrayAddr (mem : Mem) (base d : Nat) : Nat :=
  base + mem.u32at (importTableAddr mem base + 20 * d)

/-- The 64-bit thunk value at index `k` of descriptor `d`'s
`OriginalFirstThunk` array. -/
def impThunkAt (mem : Mem) (base d k : Nat) : Nat :=
  mem.u64at (impThunkArrayAddr mem base d + 8 * k)

/-- Descriptor `d`'s DLL name matches `dllName` case-insensitively. -/
def impDllNameMatch (mem : Mem) (base : Nat) (dllName : String)
    (d : Nat) : Prop :=
  stricmpEq (mem.cstrAt (base +
    mem.u32at (importTableAddr mem base + 20 * d + 12))) dllName = true

instance (mem : Mem) (base : Nat) (dllName : String) (d : Nat) :
    Decidable (impDllNameMatch mem base dllName d) :=
  inferInstanceAs (Decidable (_ = _))

/-- Thunk `k` of descriptor `d` is a by-name (not snap-by-ordinal) entry
whose `IMAGE_IMPORT_BY_NAME::Name` matches `symbolName`
case-insensitively. -/
def impThunkByNameMatch (mem : Mem) (base : Nat) (symbolName : String)
    (d k : Nat) : Prop :=
  impThunkAt mem base d k < 2 ^ 63 ∧
  stricmpEq (mem.cstrAt (base + impThunkAt mem base d k + 2))
    symbolName = true

instance (mem : Mem) (base : Nat) (symbolName : String) (d k : Nat) :
    Decidable (impThunkByNameMatch mem base symbolName d k) :=
  inferInstanceAs (Decidable (_ ∧ _))

/-- The import directory of `module` contains, in descriptor `d` at thunk
index `k`, a by-name (not snap-by-ordinal) entry whose DLL name matches
`dllName` and whose import name matches `symbolName`, both
case-insensitively. -/
def importDirHasByNameThunk (mem : Mem) (module : Nat)
    (dllName symbolName : String) (d k : Nat) : Prop :=
  importDescReachable mem module d ∧
  impDllNameMatch mem module dllName d ∧
  importThunkReachable mem (impThunkArrayAddr mem module d) k ∧
  impThunkByNameMatch mem module symbolName d k

/-- Address of the IAT cell for thunk index `k` of descriptor `d`:
`base + FirstThunk + 8 * k`. -/
def iatCellAddr (mem : Mem) (base d k : Nat) : Nat :=
  base + mem.u32at (importTableAddr mem base + 20 * d + 16) + 8 * k

/-- Pointwise update of a memory map at one address, modelling a write
through a returned slot pointer. -/
def memUpd (f : Nat → Nat) (a v : Nat) : Nat → Nat :=
  fun x => if x = a then v else f x

/-- Observable side effects of the startup sequence in `src/sfse/sfse.cpp`:
log lines, plugin-manager phase invocations, hook writes' companions. -/
inductive Ev where
  | openDebugLog
  | errNoInitterm
  | errNoCmdline
  | msgRuntimeInit
  | msgImagebase
  | msgRelocImagebase
  | errBranchTrampoline
  | errCodegenBuffer
  | pmInit
  | pmInstallPreload
  | msgPreinitComplete
  | pmInstallLoad
  | pmLoadComplete
  | hooksVersionApply
  | hooksScriptApply
  | flushInstructionCache
  | msgInitComplete
  | debugLogFlush
deriving DecidableEq, Repr

/-- Outcomes of the two trampoline creations attempted by `SFSE_Preinit`
(`g_branchTrampoline.create(1024 * 64)` and
`g_localTrampoline.create(1024 * 64, g_moduleHandle)`); the trampoline
implementation itself is outside the embedded sources, so only its
success/failure is modelled. -/
structure Env where
  branchTrampolineOk : Bool
  localTrampolineOk : Bool
deriving DecidableEq, Repr

/-- The two function-local `static bool runOnce` latches of
`SFSE_Preinit` and `SFSE_Initialize`. -/
structure SFSEState where
  preinitRun : Bool
  initRun : Bool
deriving DecidableEq, Repr

/-- Embeds `SFSE_Preinit` (src/sfse/sfse.cpp, lines 102–145): returns the
updated latch state and the ordered effects of this call.  The latch is
set before anything else runs; a trampoline-creation failure logs an
error and skips the remainder (plugin-manager init, preload install, the
completion message). -/
def SFSE_Preinit (env : Env) (s : SFSEState) : SFSEState × List Ev :=
  if s.preinitRun then (s, [])
  else
    let s' := { s with preinitRun := true }
    let banner := [Ev.msgRuntimeInit, Ev.msgImagebase, Ev.msgRelocImagebase]
    if env.branchTrampolineOk = false then
      (s', banner ++ [Ev.errBranchTrampoline])
    else if env.localTrampolineOk = false then
      (s', banner ++ [Ev.errCodegenBuffer])
    else
      (s', banner ++ [Ev.pmInit, Ev.pmInstallPreload, Ev.msgPreinitComplete])

/-- The effects of one full run of `SFSE_Initialize`'s body, in source
order. -/
def loadSequence : List Ev :=
  [Ev.pmInstallLoad, Ev.pmLoadComplete, Ev.hooksVersionApply,
   Ev.hooksScriptApply, Ev.flushInstructionCache, Ev.msgInitComplete,
   Ev.debugLogFlush]

/-- Embeds `SFSE_Initialize` (src/sfse/sfse.cpp, lines 150–169): its own
`static bool runOnce` latch guards the load phase, load-complete
notification, the version/script hooks, the cache flush and the log
flush. -/
def SFSE_Initialize (s : SFSEState) : SFSEState × List Ev :=
  if s.initRun then (s, [])
  else ({ s with initRun := true }, loadSequence)

/-- Embeds `__initterm_e_Hook(a, b)` (src/sfse/sfse.cpp, lines 30–34):
runs `SFSE_Preinit`, then unconditionally tail-calls the saved original
(modelled as the pure function `orig`) on the unmodified argument pair. -/
def inittermHook {A B : Type} (env : Env) (orig : A → B) (s : SFSEState)
    (a : A) : SFSEState × List Ev × B :=
  let p := SFSE_Preinit env s
  (p.1, p.2, orig a)

/-- Embeds `__get_narrow_winmain_command_line_Hook()`
(src/sfse/sfse.cpp, lines 43–47): runs `SFSE_Initialize`, then
unconditionally returns the saved original's result. -/
def cmdlineHook {B : Type} (orig : Unit → B) (s : SFSEState) :
    SFSEState × List Ev × B :=
  let p := SFSE_Initialize s
  (p.1, p.2, orig ())

/-- A sequence of host calls through the hooked `_initterm_e` slot:
threads the latch state and collects each call's (effects, result). -/
def inittermCalls {A B : Type} (env : Env) (orig : A → B) :
    SFSEState → List A → SFSEState × List (List Ev × B)
  | s, [] => (s, [])
  | s, a :: rest =>
    let c := inittermHook env orig s a
    let r := inittermCalls env orig c.1 rest
    (r.1, (c.2.1, c.2.2) :: r.2)

/-- A sequence of `n` host calls through the hooked
`_get_narrow_winmain_command_line` slot. -/
def cmdlineCalls {B : Type} (orig : Unit → B) :
    SFSEState → Nat → SFSEState × List (List Ev × B)
  | s, 0 => (s, [])
  | s, n + 1 =>
    let c := cmdlineHook orig s
    let r := cmdlineCalls orig c.1 n
    (r.1, (c.2.1, c.2.2) :: r.2)

/-- The DLL whose imports `installBaseHooks` redirects. -/
def crtRuntimeDll : String := "api-ms-win-crt-runtime-l1-1-0.dll"

/-- Result of `installBaseHooks`: ordered log events, the
`safeWrite64(slot, hook)` writes performed (address, value), and the
original slot contents saved for chaining. -/
structure BaseHooksResult where
  events : List Ev
  writes : List (Nat × Nat)
  inittermOriginal : Option Nat
  cmdlineOriginal : Option Nat
deriving DecidableEq, Repr

/-- Embeds `installBaseHooks` (src/sfse/sfse.cpp, lines 52–84): opens the
debug log, resolves the two CRT import slots via `getIATAddr`, and for
each resolved slot saves the original value and writes the hook address;
an unresolved slot only logs an error.  `hookInitterm`/`hookCmdline` are
the link-time addresses of the two replacement functions. -/
def installBaseHooks (mem : Mem) (exe : Nat) (fuelD fuelT : Nat)
    (hookInitterm hookCmdline : Nat) : BaseHooksResult :=
  let initterm := getIATAddr mem exe crtRuntimeDll "_initterm_e" fuelD fuelT
  let cmdline := getIATAddr mem exe crtRuntimeDll
    "_get_narrow_winmain_command_line" fuelD fuelT
  let r1 : List Ev × List (Nat × Nat) × Option Nat :=
    match initterm with
    | some slot => ([], [(slot, hookInitterm)], some (mem.u64at slot))
    | none => ([Ev.errNoInitterm], [], none)
  let r2 : List Ev × List (Nat × Nat) × Option Nat :=
    match cmdline with
    | some slot => ([], [(slot, hookCmdline)], some (mem.u64at slot))
    | none => ([Ev.errNoCmdline], [], none)
  ⟨Ev.openDebugLog :: (r1.1 ++ r2.1), r1.2.1 ++ r2.2.1, r1.2.2, r2.2.2⟩

/-- The 64-bit address space size, for pointer arithmetic that can wrap
(`vtbl[-1]`). -/
def M64 : Nat := 2 ^ 64

/-- Fallible typed reads for the `__try`-guarded RTTI walk of
`getObjectClassName`: `none` models a memory-access fault caught by the
structured exception handler. -/
structure RMem where
  ptrAt : Nat → Option Nat
  u32at : Nat → Option Nat
  byteAt : Nat → Option Nat

/-- The bounded NUL scan of `getObjectClassName`
(`for (u32 i = 0; i < 100; i++) if (type->name[i] == 0) ...`): starting
at index `i` with `rem` iterations left, returns `none` on a faulting
byte read, `some none` when the cap is hit without a NUL, and
`some (some j)` for the first NUL index `j`. -/
def rttiScanNul (mem : RMem) (nameAddr : Nat) :
    Nat → Nat → Option (Option Nat)
  | _, 0 => some none
  | i, rem + 1 =>
    match mem.byteAt (nameAddr + i) with
    | none => none
    | some b =>
      if b = 0 then some (some i) else rttiScanNul mem nameAddr (i + 1) rem

/-- Decodes the string a returned `name + 4` pointer designates: `len`
bytes starting at `a` (all read during the scan), with faults decoded as
NUL — the success path guarantees none occur. -/
def cstrBytes (mem : RMem) (a len : Nat) : String :=
  String.mk ((List.range len).map fun j =>
    Char.ofNat ((mem.byteAt (a + j)).getD 0))

/-- The pointer-chasing part of `getObjectClassName`'s `__try` body:
`obj[0]` (the vtable pointer), `vtbl[-1]` (the complete-object locator,
one pointer slot back, with 64-bit wrap), its `typeDesc` field (offset 12
of `RTTILocator`), then the type descriptor's `name` array at offset 16
of `RTTIType`.  Modelled from the spec for the part outside `src/`:
`RelocPtr<RTTIType> type(typeDesc)` "resolves a relative/absolute
type-name pointer", i.e. the descriptor lives at
`relocBase + typeDesc`. -/
def rttiNameAddr (mem : RMem) (relocBase objBase : Nat) : Option Nat := do
  let vtbl ← mem.ptrAt objBase
  let rtti ← mem.ptrAt ((vtbl + M64 - 8) % M64)
  let typeDesc ← mem.u32at (rtti + 12)
  pure (relocBase + typeDesc + 16)

/-- The `__try` body of `getObjectClassName`
(src/sfse_common/Utilities.cpp, lines 295–327): `none` models a caught
fault; `some s` is the string the function's result pointer designates.
The marker test short-circuits exactly as
`(type->name[0] == '.') && (type->name[1] == '?')` does; when the scan
finds the terminator at index `i`, the result is `name + 4`, whose
content is the `i - 4` bytes after the mangling prefix. -/
def getObjectClassNameTry (mem : RMem) (relocBase objBase : Nat) :
    Option String := do
  let nameAddr ← rttiNameAddr mem relocBase objBase
  let c0 ← mem.byteAt nameAddr
  if c0 = 0x2E then
    let c1 ← mem.byteAt (nameAddr + 1)
    if c1 = 0x3F then
      match rttiScanNul mem nameAddr 0 100 with
      | none => none
      | some none => pure "<no rtti>"
      | some (some i) => pure (cstrBytes mem (nameAddr + 4) (i - 4))
    else pure "<no rtti>"
  else pure "<no rtti>"

/-- Embeds `getObjectClassName(objBase)`: the `__except` handler turns
any fault in the walk into the default result, the literal
`"<no rtti>"`. -/
def getObjectClassName (mem : RMem) (relocBase objBase : Nat) : String :=
  match getObjectClassNameTry mem relocBase objBase with
  | some s => s
  | none => "<no rtti>"

/-- Whitespace set of `sscanf`'s `%u` conversion (C `isspace`, default
locale). -/
def isSpaceC (c : Char) : Bool :=
  c = ' ' ∨ c = '\t' ∨ c = '\n' ∨ c = '\x0b' ∨ c = '\x0c' ∨ c = '\r'

/-- Embeds one `sscanf_s(data, "%u", out)` conversion: skip whitespace,
an optional sign, then at least one decimal digit; the converted value
wraps to 32 bits (a leading minus negates modulo `2 ^ 32`).  `none`
models a failed conversion (`sscanf` result 0). -/
def scanfU (s : String) : Option Nat :=
  let cs := s.data.dropWhile isSpaceC
  let p : Bool × List Char :=
    match cs with
    | '-' :: rest => (true, rest)
    | '+' :: rest => (false, rest)
    | _ => (false, cs)
  let ds := p.2.takeWhile Char.isDigit
  if ds.isEmpty then none
  else
    let v := (ds.foldl (fun acc c => acc * 10 + (c.toNat - 48)) 0) % 2 ^ 32
    some (if p.1 then (2 ^ 32 - v) % 2 ^ 32 else v)

/-- Embeds `getConfigOption(section, key)`
(src/sfse_common/Utilities.cpp, lines 98–114).  `configPath` is `none`
when `getConfigPath()` came back empty (no runtime directory); `ini` is
the abstract content of the INI file as `GetPrivateProfileString` reads
it — `none` for an absent file or key, in which case the buffer keeps the
empty default.  The 256-byte result buffer caps the value at 255
characters. -/
def getConfigOption (configPath : Option String)
    (ini : String → String → Option String) (sec key : String) : String :=
  match configPath with
  | none => ""
  | some _ =>
    match ini sec key with
    | some v => v.take 255
    | none => ""

/-- Embeds `getConfigOption_u32(section, key, dataOut)`
(src/sfse_common/Utilities.cpp, lines 124–131): the first component is
the returned `bool`, the second is the value written through `dataOut`
(`none` when nothing is written — empty lookup or failed conversion). -/
def getConfigOption_u32 (configPath : Option String)
    (ini : String → String → Option String) (sec key : String) :
    Bool × Option Nat :=
  let data := getConfigOption configPath ini sec key
  if data.isEmpty then (false, none)
  else
    match scanfU data with
    | some v => (true, some v)
    | none => (false, none)

/-- Builds a concrete `Mem` from finite tables (zero-filled elsewhere);
the width masks discharge the load-bound invariants. -/
def mkMem (t16 t32 t64 : List (Nat × Nat)) (tstr : List (Nat × String)) :
    Mem where
  u16at := fun a => assocD t16 0 a % 2 ^ 16
  u32at := fun a => assocD t32 0 a % 2 ^ 32
  u64at := fun a => assocD t64 0 a % 2 ^ 64
  cstrAt := assocStr tstr
  u16at_lt := fun _ => Nat.mod_lt _ (by norm_num)
  u32at_lt := fun _ => Nat.mod_lt _ (by norm_num)
  u64at_lt := fun _ => Nat.mod_lt _ (by norm_num)

/-- Machine-type table of the small test image: an AMD64 module with
name-ordinal entries `[0, 1]` at `0x258`. -/
def testU16 : List (Nat × Nat) :=
  [(0x44, 0x8664), (0x25A, 1)]

/-- The 32-bit fields of the small test image (base 0): NT headers at
`0x40`, an export directory at `0x200` with two entries (`"alpha"` at RVA
`0x1111`, `"beta"` at RVA `0x2222`) and an import directory at `0x400`
with one descriptor for the CRT DLL. -/
def testU32 : List (Nat × Nat) :=
  [(0x3C, 0x40), (0xC8, 0x200), (0xD0, 0x400),
   (0x214, 2), (0x218, 2), (0x21C, 0x240), (0x220, 0x250), (0x224, 0x258),
   (0x240, 0x1111), (0x244, 0x2222), (0x250, 0x260), (0x254, 0x268),
   (0x400, 0x500), (0x40C, 0x480), (0x410, 0x540)]

/-- The 64-bit thunk array (two by-name thunks, then the terminator at
the zero default) and the IAT cells of the small test image. -/
def testU64 : List (Nat × Nat) :=
  [(0x500, 0x560), (0x508, 0x570), (0x540, 0xAAAA), (0x548, 0xBBBB)]

/-- The strings of the small test image. -/
def testStr : List (Nat × String) :=
  [(0x260, "alpha"), (0x268, "beta"),
   (0x480, "api-ms-win-crt-runtime-l1-1-0.dll"),
   (0x562, "_initterm_e"), (0x572, "_get_narrow_winmain_command_line")]

/-- A concrete module image with both CRT imports and two exports. -/
def testMem : Mem := mkMem testU16 testU32 testU64 testStr

/-- Variant of the test image whose only import thunk is the
command-line accessor, so `_initterm_e` cannot be resolved. -/
def testMemNoInitterm : Mem :=
  mkMem testU16 testU32 [(0x500, 0x570), (0x540, 0xAAAA), (0x548, 0xBBBB)]
    testStr

/-- An image whose import directory holds two descriptors both named
`"a.dll"`: the first one's only thunk imports `"x"`, the second one's
only thunk imports `"y"`. -/
def dupDllMem : Mem :=
  mkMem []
    [(0x3C, 0x40), (0xD0, 0x400),
     (0x400, 0x500), (0x40C, 0x480), (0x410, 0x540),
     (0x414, 0x5A0), (0x420, 0x488), (0x424, 0x580)]
    [(0x500, 0x560), (0x5A0, 0x590)]
    [(0x480, "a.dll"), (0x488, "a.dll"), (0x562, "x"), (0x592, "y")]

/-- Builds a fallible read map from a finite table: mapped addresses read
their value, every other access faults. -/
def rmemAssoc (tbl : List (Nat × Nat)) (a : Nat) : Option Nat :=
  (tbl.find? (fun p => p.1 == a)).map (fun p => p.2)

/-- An object whose RTTI walk succeeds: object at `0x1000`, vtable at
`0x2000`, locator at `0x3000` with `typeDesc = 0x4000`; with relocation
base `0x10000` the descriptor name at `0x14010` reads `".?AVFoo@@"`. -/
def rttiMem : RMem :=
  ⟨rmemAssoc [(0x1000, 0x2000), (0x1FF8, 0x3000)],
   rmemAssoc [(0x300C, 0x4000)],
   rmemAssoc [(0x14010, 0x2E), (0x14011, 0x3F), (0x14012, 0x41),
     (0x14013, 0x56), (0x14014, 0x46), (0x14015, 0x6F), (0x14016, 0x6F),
     (0x14017, 0x40), (0x14018, 0x40), (0x14019, 0)]⟩

/-- A memory in which every access faults: the walk traps on the first
dereference, as for a non-polymorphic or invalid object pointer. -/
def faultMem : RMem := ⟨fun _ => none, fun _ => none, fun _ => none⟩

/-- Same successful pointer chain as `rttiMem`, but the type-descriptor
name starts with `'X'` instead of the mangling marker. -/
def badMarkerMem : RMem :=
  ⟨rmemAssoc [(0x1000, 0x2000), (0x1FF8, 0x3000)],
   rmemAssoc [(0x300C, 0x4000)],
   rmemAssoc [(0x14010, 0x58)]⟩

theorem findExportLoop_none (mem : Mem) (base : Nat) (name : String) :
    ∀ rem i, (∀ k, k < rem → ¬ expMatchAt mem base name (i + k)) →
      findExportLoop mem base name i rem = none := by
  intro rem
  induction rem with
  | zero => intro i _; rfl
  | succ rem ih =>
    intro i h
    have h0 : ¬ expMatchAt mem base name i := by
      simpa using h 0 (Nat.succ_pos rem)
    simp only [findExportLoop, if_neg h0]
    exact ih (i + 1) fun k hk => by
      have h2 : i + 1 + k = i + (k + 1) := by omega
      rw [h2]; exact h (k + 1) (by omega)

theorem findExportLoop_some (mem : Mem) (base : Nat) (name : String) :
    ∀ rem i k, k < rem →
      (∀ k', k' < k → ¬ expMatchAt mem base name (i + k')) →
      expMatchAt mem base name (i + k) →
      findExportLoop mem base name i rem =
        some (exportEntryAddr mem base (i + k)) := by
  intro rem
  induction rem with
  | zero => intro i k hk; omega
  | succ rem ih =>
    intro i k hk hmin hmatch
    cases k with
    | zero =>
      have h0 : expMatchAt mem base name i := by simpa using hmatch
      simp only [findExportLoop, if_pos h0]
      simp [exportEntryAddr]
    | succ k =>
      have h0 : ¬ expMatchAt mem base name i := by
        simpa using hmin 0 (Nat.succ_pos k)
      simp only [findExportLoop, if_neg h0]
      have h2 : i + 1 + k = i + (k + 1) := by omega
      rw [← h2] at hmatch ⊢
      exact ih (i + 1) k (by omega)
        (fun k' hk' => by
          have h3 : i + 1 + k' = i + (k' + 1) := by omega
          rw [h3]; exact hmin (k' + 1) (by omega)) hmatch

theorem clearLow2_idem (p : Nat) : clearLow2 (clearLow2 p) = clearLow2 p := by
  unfold clearLow2
  have h := Nat.div_add_mod p 4
  have h2 : p - p % 4 = 4 * (p / 4) := by omega
  rw [h2, Nat.mul_mod_right]
  omega

/-- C10: `getResourceLibraryProcAddress` and `is64BitDLL` ignore the low
two bits of the module pointer — for every module pointer `p` and every
export name, each returns the same result for `p` as for `p` with its low
two bits cleared, so tagged resource-library handles are accepted. -/
theorem module_low_bits_ignored (mem : Mem) (p : Nat) (exportName : String) :
    getResourceLibraryProcAddress mem (clearLow2 p) exportName =
      getResourceLibraryProcAddress mem p exportName ∧
    is64BitDLL mem (clearLow2 p) = is64BitDLL mem p := by
  constructor
  · show findExportLoop mem (clearLow2 (clearLow2 p)) exportName 0
        (expNumFuncs mem (clearLow2 (clearLow2 p))) = _
    rw [clearLow2_idem]
    rfl
  · show (mem.u16at (ntHeaderAddr mem (clearLow2 (clearLow2 p)) + 4) == 0x8664) = _
    rw [clearLow2_idem]
    rfl

/-- C1: for every module whose export directory contains an entry named
`exportName`, `getResourceLibraryProcAddress` returns
`base + addressRVA` for the (first) corresponding entry; for every
`exportName` absent from the export directory it returns `none` — never a
stale or previous result. -/
theorem getResourceLibraryProcAddress_correct (mem : Mem) (module : Nat)
    (exportName : String) :
    ((∀ i, ¬ exportEntryNamed mem module exportName i) →
      getResourceLibraryProcAddress mem module exportName = none) ∧
    (∀ i, exportEntryNamed mem module exportName i →
      ∃ j, exportEntryNamed mem module exportName j ∧
        (∀ j', j' < j → ¬ exportEntryNamed mem module exportName j') ∧
        getResourceLibraryProcAddress mem module exportName =
          some (exportEntryAddr mem (clearLow2 module) j)) := by
  constructor
  · intro h
    show findExportLoop mem (clearLow2 module) exportName 0
        (expNumFuncs mem (clearLow2 module)) = none
    apply findExportLoop_none
    intro k hk hm
    exact h k ⟨by simpa using hk, by simpa using hm⟩
  · intro i hi
    have hex : ∃ j, exportEntryNamed mem module exportName j := ⟨i, hi⟩
    refine ⟨Nat.find hex, Nat.find_spec hex,
      fun j' hj' => Nat.find_min hex hj', ?_⟩
    have hspec := Nat.find_spec hex
    show findExportLoop mem (clearLow2 module) exportName 0
        (expNumFuncs mem (clearLow2 module)) =
      some (exportEntryAddr mem (clearLow2 module) (Nat.find hex))
    have hres := findExportLoop_some mem (clearLow2 module) exportName
      (expNumFuncs mem (clearLow2 module)) 0 (Nat.find hex) hspec.1
      (fun k' hk' hm => Nat.find_min hex hk'
        ⟨Nat.lt_trans hk' hspec.1, by simpa using hm⟩)
      (by simpa using hspec.2)
    simpa using hres

/-- Witness for C1 on the concrete test image: `"beta"` resolves to its
entry's address and `"gamma"` (absent) resolves to `none`. -/
theorem getResourceLibraryProcAddress_correct_witness :
    (∃ j, exportEntryNamed testMem 0 "beta" j ∧
      (∀ j', j' < j → ¬ exportEntryNamed testMem 0 "beta" j') ∧
      getResourceLibraryProcAddress testMem 0 "beta" =
        some (exportEntryAddr testMem (clearLow2 0) j)) ∧
    getResourceLibraryProcAddress testMem 0 "gamma" = none := by
  constructor
  · exact (getResourceLibraryProcAddress_correct testMem 0 "beta").2 1
      (by decide)
  · apply (getResourceLibraryProcAddress_correct testMem 0 "gamma").1
    intro i hi
    have h2 : i < 2 := by
      have h1 := hi.1
      have he : expNumFuncs testMem (clearLow2 0) = 2 := by decide
      omega
    interval_cases i
    · exact absurd hi (by decide)
    · exact absurd hi (by decide)

theorem impThunkScan_some (mem : Mem) (base thunkBase iatBase : Nat)
    (name : String) :
    ∀ fuel i k, k < fuel →
      (∀ k', k' < k → mem.u64at (thunkBase + 8 * (i + k')) ≠ 0 ∧
        ¬(mem.u64at (thunkBase + 8 * (i + k')) < 2 ^ 63 ∧
          stricmpEq (mem.cstrAt (base + mem.u64at (thunkBase + 8 * (i + k')) + 2))
            name = true)) →
      mem.u64at (thunkBase + 8 * (i + k)) ≠ 0 →
      (mem.u64at (thunkBase + 8 * (i + k)) < 2 ^ 63 ∧
        stricmpEq (mem.cstrAt (base + mem.u64at (thunkBase + 8 * (i + k)) + 2))
          name = true) →
      impThunkScan mem base thunkBase iatBase name i fuel =
        some (iatBase + 8 * (i + k)) := by
  intro fuel
  induction fuel with
  | zero => intro i k hk; omega
  | succ fuel ih =>
    intro i k hk hprev hnz hmatch
    cases k with
    | zero =>
      have hnz0 : ¬ mem.u64at (thunkBase + 8 * i) = 0 := by simpa using hnz
      have hm0 := hmatch
      simp only [Nat.add_zero] at hm0
      simp only [impThunkScan, if_neg hnz0, if_pos hm0, Nat.add_zero]
    | succ k =>
      have h0 := hprev 0 (Nat.succ_pos k)
      have h0nz : ¬ mem.u64at (thunkBase + 8 * i) = 0 := by simpa using h0.1
      have h0nm : ¬(mem.u64at (thunkBase + 8 * i) < 2 ^ 63 ∧
          stricmpEq (mem.cstrAt (base + mem.u64at (thunkBase + 8 * i) + 2))
            name = true) := by simpa using h0.2
      simp only [impThunkScan, if_neg h0nz, if_neg h0nm]
      have he : i + (k + 1) = i + 1 + k := by omega
      rw [he] at hnz hmatch
      rw [show iatBase + 8 * (i + (k + 1)) = iatBase + 8 * (i + 1 + k) by omega]
      exact ih (i + 1) k (by omega)
        (fun k' hk' => by
          have he' : i + 1 + k' = i + (k' + 1) := by omega
          rw [he']; exact hprev (k' + 1) (by omega)) hnz hmatch

theorem impDescScan_match (mem : Mem) (base importTable : Nat)
    (dll name : String) (fuelT : Nat) :
    ∀ fuelD i d, d < fuelD →
      (∀ d', d' < d → mem.u32at (importTable + 20 * (i + d')) ≠ 0 ∧
        ¬ stricmpEq (mem.cstrAt (base + mem.u32at (importTable + 20 * (i + d') + 12)))
          dll = true) →
      mem.u32at (importTable + 20 * (i + d)) ≠ 0 →
      stricmpEq (mem.cstrAt (base + mem.u32at (importTable + 20 * (i + d) + 12)))
        dll = true →
      impDescScan mem base importTable dll name fuelT i fuelD =
        impThunkScan mem base (base + mem.u32at (importTable + 20 * (i + d)))
          (base + mem.u32at (importTable + 20 * (i + d) + 16)) name 0 fuelT := by
  intro fuelD
  induction fuelD with
  | zero => intro i d hd; omega
  | succ fuelD ih =>
    intro i d hd hprev hnz hdll
    cases d with
    | zero =>
      have hnz0 : ¬ mem.u32at (importTable + 20 * i) = 0 := by simpa using hnz
      have hdll0 := hdll
      simp only [Nat.add_zero] at hdll0 ⊢
      simp only [impDescScan, if_neg hnz0, if_pos hdll0]
    | succ d =>
      have h0 := hprev 0 (Nat.succ_pos d)
      have h0nz : ¬ mem.u32at (importTable + 20 * i) = 0 := by simpa using h0.1
      have h0nm : ¬ stricmpEq (mem.cstrAt (base + mem.u32at (importTable + 20 * i + 12)))
          dll = true := by simpa using h0.2
      simp only [impDescScan, if_neg h0nz, if_neg h0nm]
      have he : i + (d + 1) = i + 1 + d := by omega
      rw [he] at hnz hdll ⊢
      exact ih (i + 1) d (by omega)
        (fun d' hd' => by
          have he' : i + 1 + d' = i + (d' + 1) := by omega
          rw [he']; exact hprev (d' + 1) (by omega)) hnz hdll

/-- C3 (amended): for every `(module, dllName, symbolName)` such that the
FIRST import descriptor whose DLL name matches `dllName`
case-insensitively contains a by-name (not by-ordinal) thunk matching
`symbolName` (first matching thunk index `k`), `getIATAddr` returns the
address of that exact IAT pointer cell (`base + FirstThunk + 8 * k`)
itself — not its value — and writing a new value through the returned
address changes that cell and no other cell of the array. -/
theorem getIATAddr_first_match (mem : Mem) (module : Nat)
    (dllName symbolName : String) (d k fuelD fuelT : Nat)
    (hfD : d < fuelD) (hfT : k < fuelT)
    (hdprev : ∀ d', d' < d →
      mem.u32at (importTableAddr mem module + 20 * d') ≠ 0 ∧
      ¬ impDllNameMatch mem module dllName d')
    (hdesc : mem.u32at (importTableAddr mem module + 20 * d) ≠ 0)
    (hdll : impDllNameMatch mem module dllName d)
    (hkprev : ∀ k', k' < k →
      impThunkAt mem module d k' ≠ 0 ∧
      ¬ impThunkByNameMatch mem module symbolName d k')
    (hknz : impThunkAt mem module d k ≠ 0)
    (hkmatch : impThunkByNameMatch mem module symbolName d k) :
    getIATAddr mem module dllName symbolName fuelD fuelT =
      some (iatCellAddr mem module d k) ∧
    ∀ v cells j, j ≠ k →
      memUpd cells (iatCellAddr mem module d k) v
        (iatCellAddr mem module d k) = v ∧
      memUpd cells (iatCellAddr mem module d k) v
        (iatCellAddr mem module d j) = cells (iatCellAddr mem module d j) := by
  constructor
  · show impDescScan mem module (importTableAddr mem module) dllName
      symbolName fuelT 0 fuelD = _
    have hstep := impDescScan_match mem module (importTableAddr mem module)
      dllName symbolName fuelT fuelD 0 d hfD
      (fun d' hd' => by
        have h := hdprev d' hd'
        simpa [impDllNameMatch] using h)
      (by simpa using hdesc) (by simpa [impDllNameMatch] using hdll)
    rw [hstep]
    have hinner := impThunkScan_some mem module
      (module + mem.u32at (importTableAddr mem module + 20 * (0 + d)))
      (module + mem.u32at (importTableAddr mem module + 20 * (0 + d) + 16))
      symbolName fuelT 0 k hfT
      (fun k' hk' => by
        have h := hkprev k' hk'
        simpa [impThunkAt, impThunkArrayAddr, impThunkByNameMatch] using h)
      (by simpa [impThunkAt, impThunkArrayAddr] using hknz)
      (by simpa [impThunkByNameMatch, impThunkAt, impThunkArrayAddr] using hkmatch)
    rw [hinner]
    simp [iatCellAddr]
  · intro v cells j hj
    constructor
    · simp [memUpd]
    · have hne : iatCellAddr mem module d j ≠ iatCellAddr mem module d k := by
        simp only [iatCellAddr]
        omega
      simp [memUpd, hne]

/-- Witness for C3's amended theorem on the concrete test image:
`_initterm_e` is the first thunk of the first (and only) descriptor, the
returned address is the first IAT cell, and an update through it leaves
the neighbouring cell unchanged. -/
theorem getIATAddr_first_match_witness :
    getIATAddr testMem 0 "api-ms-win-crt-runtime-l1-1-0.dll" "_initterm_e"
        8 8 = some (iatCellAddr testMem 0 0 0) ∧
    memUpd (fun _ => 0) (iatCellAddr testMem 0 0 0) 7
      (iatCellAddr testMem 0 0 0) = 7 ∧
    memUpd (fun _ => 0) (iatCellAddr testMem 0 0 0) 7
      (iatCellAddr testMem 0 0 1) = 0 := by
  have h := getIATAddr_first_match testMem 0
    "api-ms-win-crt-runtime-l1-1-0.dll" "_initterm_e" 0 0 8 8
    (by omega) (by omega)
    (fun d' hd' => absurd hd' (by omega))
    (by decide) (by decide)
    (fun k' hk' => absurd hk' (by omega))
    (by decide) (by decide)
  exact ⟨h.1, (h.2 7 (fun _ => 0) 1 (by omega)).1,
    (h.2 7 (fun _ => 0) 1 (by omega)).2⟩

/-- Counterexample to C3 as stated: `dupDllMem`'s import directory
contains (descriptor 1, thunk 0) a by-name thunk matching
`("a.dll", "y")`, yet `getIATAddr` returns `none`, because the scan
commits to the FIRST descriptor whose DLL name matches and that
descriptor only imports `"x"`. -/
theorem getIATAddr_duplicate_dll_counterexample :
    importDirHasByNameThunk dupDllMem 0 "a.dll" "y" 1 0 ∧
    getIATAddr dupDllMem 0 "a.dll" "y" 8 8 = none := by
  constructor
  · exact ⟨by decide, by decide, by decide, by decide⟩
  · decide

/-- C6: if `getIATAddr` fails to resolve one of the two import slots
during `installBaseHooks`, an error is logged, the unresolved slot is
left unmodified (no write targets it), the process is not aborted —
`installBaseHooks` still attempts the other hook (saving its original and
writing its replacement) and returns normally with a fully determined
result. -/
theorem installBaseHooks_degraded (mem : Mem) (exe fuelD fuelT hI hC : Nat) :
    (getIATAddr mem exe crtRuntimeDll "_initterm_e" fuelD fuelT = none →
      ∀ c, getIATAddr mem exe crtRuntimeDll
          "_get_narrow_winmain_command_line" fuelD fuelT = some c →
        installBaseHooks mem exe fuelD fuelT hI hC =
          ⟨[Ev.openDebugLog, Ev.errNoInitterm], [(c, hC)], none,
            some (mem.u64at c)⟩) ∧
    (∀ i, getIATAddr mem exe crtRuntimeDll "_initterm_e" fuelD fuelT = some i →
      getIATAddr mem exe crtRuntimeDll
          "_get_narrow_winmain_command_line" fuelD fuelT = none →
        installBaseHooks mem exe fuelD fuelT hI hC =
          ⟨[Ev.openDebugLog, Ev.errNoCmdline], [(i, hI)],
            some (mem.u64at i), none⟩) ∧
    (getIATAddr mem exe crtRuntimeDll "_initterm_e" fuelD fuelT = none →
      getIATAddr mem exe crtRuntimeDll
          "_get_narrow_winmain_command_line" fuelD fuelT = none →
        installBaseHooks mem exe fuelD fuelT hI hC =
          ⟨[Ev.openDebugLog, Ev.errNoInitterm, Ev.errNoCmdline], [],
            none, none⟩) := by
  refine ⟨?_, ?_, ?_⟩
  · intro h1 c h2
    simp [installBaseHooks, h1, h2]
  · intro i h1 h2
    simp [installBaseHooks, h1, h2]
  · intro h1 h2
    simp [installBaseHooks, h1, h2]

/-- Witness for C6 on the image whose only import thunk is the
command-line accessor: the `_initterm_e` failure is logged, nothing is
written to a nonexistent slot, and the command-line hook is still
installed over the surviving IAT cell. -/
theorem installBaseHooks_degraded_witness :
    installBaseHooks testMemNoInitterm 0 8 8 0xDEAD 0xBEEF =
      ⟨[Ev.openDebugLog, Ev.errNoInitterm], [(0x540, 0xBEEF)], none,
        some 0xAAAA⟩ :=
  (installBaseHooks_degraded testMemNoInitterm 0 8 8 0xDEAD 0xBEEF).1
    (by decide) 0x540 (by decide)

theorem sum_map_zero {α : Type} (l : List α) :
    (l.map fun _ => (0 : Nat)).sum = 0 := by
  induction l <;> simp_all

theorem SFSE_Preinit_fst (env : Env) (s : SFSEState) :
    (SFSE_Preinit env s).1 = { s with preinitRun := true } := by
  cases s with
  | mk p i =>
    by_cases h : p
    · subst h; simp [SFSE_Preinit]
    · simp only [Bool.not_eq_true] at h
      subst h
      simp only [SFSE_Preinit]
      split_ifs <;> simp_all

theorem SFSE_Preinit_skip (env : Env) (s : SFSEState)
    (h : s.preinitRun = true) : SFSE_Preinit env s = (s, []) := by
  simp [SFSE_Preinit, h]

theorem SFSE_Preinit_count (env : Env) (s : SFSEState)
    (h : s.preinitRun = false) :
    ((SFSE_Preinit env s).2).count Ev.msgRuntimeInit = 1 := by
  simp only [SFSE_Preinit, h, Bool.false_eq_true, if_false]
  split_ifs <;> rfl

theorem SFSE_Initialize_fst (s : SFSEState) :
    (SFSE_Initialize s).1 = { s with initRun := true } := by
  cases s with
  | mk p i =>
    by_cases h : i
    · subst h; simp [SFSE_Initialize]
    · simp only [Bool.not_eq_true] at h
      subst h
      simp [SFSE_Initialize]

theorem SFSE_Initialize_skip (s : SFSEState) (h : s.initRun = true) :
    SFSE_Initialize s = (s, []) := by
  simp [SFSE_Initialize, h]

theorem SFSE_Initialize_count (s : SFSEState) (h : s.initRun = false) :
    ((SFSE_Initialize s).2).count Ev.pmInstallLoad = 1 := by
  simp only [SFSE_Initialize, h, Bool.false_eq_true, if_false]
  decide

theorem inittermCalls_skip {A B : Type} (env : Env) (orig : A → B)
    (s : SFSEState) (h : s.preinitRun = true) :
    ∀ args, inittermCalls env orig s args =
      (s, args.map fun a => ([], orig a)) := by
  intro args
  induction args with
  | nil => rfl
  | cons a rest ih =>
    simp only [inittermCalls, inittermHook, SFSE_Preinit_skip env s h, ih,
      List.map_cons]

theorem cmdlineCalls_skip {B : Type} (orig : Unit → B) (s : SFSEState)
    (h : s.initRun = true) :
    ∀ n, cmdlineCalls orig s n = (s, List.replicate n ([], orig ())) := by
  intro n
  induction n with
  | zero => rfl
  | succ n ih =>
    simp only [cmdlineCalls, cmdlineHook, SFSE_Initialize_skip s h, ih,
      List.replicate_succ]

/-- C4: over any number of calls through a hooked slot (the `_initterm_e`
hook or the `_get_narrow_winmain_command_line` hook), the injected
one-time side effect (the body of `SFSE_Preinit` resp. `SFSE_Initialize`,
observable by its leading effect) executes exactly once, guarded by the
run-once latch, and every call unconditionally delegates to the saved
original with unmodified arguments and returns the original's result
unmodified. -/
theorem hooks_run_once {A B C : Type} (env : Env) (orig : A → B)
    (origC : Unit → C) (s : SFSEState) (hp : s.preinitRun = false)
    (hi : s.initRun = false) (args : List A) (n : Nat) :
    ((inittermCalls env orig s args).2.map (fun c => c.2) = args.map orig) ∧
    (((inittermCalls env orig s args).2.map
        (fun c => c.1.count Ev.msgRuntimeInit)).sum =
      if args.isEmpty then 0 else 1) ∧
    ((cmdlineCalls origC s n).2.map (fun c => c.2) =
      List.replicate n (origC ())) ∧
    (((cmdlineCalls origC s n).2.map
        (fun c => c.1.count Ev.pmInstallLoad)).sum =
      if n = 0 then 0 else 1) := by
  have hlatch : ({ s with preinitRun := true } : SFSEState).preinitRun = true := rfl
  have hlatchI : ({ s with initRun := true } : SFSEState).initRun = true := rfl
  refine ⟨?_, ?_, ?_, ?_⟩
  · cases args with
    | nil => rfl
    | cons a rest =>
      simp only [inittermCalls, inittermHook, SFSE_Preinit_fst env s,
        inittermCalls_skip env orig _ hlatch rest, List.map_cons,
        List.map_map]
      simp [Function.comp]
  · cases args with
    | nil => rfl
    | cons a rest =>
      simp only [inittermCalls, inittermHook, SFSE_Preinit_fst env s,
        inittermCalls_skip env orig _ hlatch rest, List.map_cons,
        List.map_map, List.isEmpty_cons, List.sum_cons]
      simp only [Function.comp_def, List.count_nil, sum_map_zero,
        SFSE_Preinit_count env s hp]
      simp
  · cases n with
    | zero => rfl
    | succ n =>
      simp only [cmdlineCalls, cmdlineHook, SFSE_Initialize_fst s,
        cmdlineCalls_skip origC _ hlatchI n, List.map_cons, List.map_map,
        List.replicate_succ]
      simp [Function.comp]
  · cases n with
    | zero => rfl
    | succ n =>
      simp only [cmdlineCalls, cmdlineHook, SFSE_Initialize_fst s,
        cmdlineCalls_skip origC _ hlatchI n, List.map_cons, List.map_map,
        List.sum_cons]
      simp only [Function.comp_def, List.count_nil, List.map_const',
        List.sum_replicate, SFSE_Initialize_count s hi]
      simp

/-- Witness for C4: three and two concrete calls through the two hooked
slots from the fresh latch state. -/
theorem hooks_run_once_witness :
    ((inittermCalls ⟨true, true⟩ Nat.succ ⟨false, false⟩ [1, 2]).2.map
        (fun c => c.2) = [1, 2].map Nat.succ) ∧
    (((inittermCalls ⟨true, true⟩ Nat.succ ⟨false, false⟩ [1, 2]).2.map
        (fun c => c.1.count Ev.msgRuntimeInit)).sum =
      if ([1, 2] : List Nat).isEmpty then 0 else 1) ∧
    ((cmdlineCalls (fun _ => 7) ⟨false, false⟩ 3).2.map (fun c => c.2) =
      List.replicate 3 ((fun _ : Unit => 7) ())) ∧
    (((cmdlineCalls (fun _ => 7) ⟨false, false⟩ 3).2.map
        (fun c => c.1.count Ev.pmInstallLoad)).sum =
      if 3 = 0 then 0 else 1) :=
  hooks_run_once ⟨true, true⟩ Nat.succ (fun _ => 7) ⟨false, false⟩ rfl rfl
    [1, 2] 3

/-- C5: if creation of the branch trampoline or of the codegen buffer
fails in `SFSE_Preinit`, the error is logged and the remainder of preinit
is skipped — plugin-manager init and the preload-phase install never
happen — and, the run-once latch having been set before the failure, no
later call (under any environment, even one in which creation would now
succeed) retries the sequence. -/
theorem preinit_failure_skips_rest (env : Env) (s : SFSEState)
    (hp : s.preinitRun = false) :
    (env.branchTrampolineOk = false →
      Ev.errBranchTrampoline ∈ (SFSE_Preinit env s).2 ∧
      Ev.pmInit ∉ (SFSE_Preinit env s).2 ∧
      Ev.pmInstallPreload ∉ (SFSE_Preinit env s).2 ∧
      (SFSE_Preinit env s).1.preinitRun = true ∧
      ∀ env', SFSE_Preinit env' (SFSE_Preinit env s).1 =
        ((SFSE_Preinit env s).1, [])) ∧
    (env.branchTrampolineOk = true → env.localTrampolineOk = false →
      Ev.errCodegenBuffer ∈ (SFSE_Preinit env s).2 ∧
      Ev.pmInit ∉ (SFSE_Preinit env s).2 ∧
      Ev.pmInstallPreload ∉ (SFSE_Preinit env s).2 ∧
      (SFSE_Preinit env s).1.preinitRun = true ∧
      ∀ env', SFSE_Preinit env' (SFSE_Preinit env s).1 =
        ((SFSE_Preinit env s).1, [])) := by
  constructor
  · intro hb
    refine ⟨?_, ?_, ?_, ?_, ?_⟩ <;>
      simp [SFSE_Preinit, hp, hb, SFSE_Preinit_skip]
  · intro hb hl
    refine ⟨?_, ?_, ?_, ?_, ?_⟩ <;>
      simp [SFSE_Preinit, hp, hb, hl, SFSE_Preinit_skip]

/-- Witness for C5: branch-trampoline failure from the fresh state —
error logged, no plugin-manager events, latch set, and a later call under
a fully succeeding environment does nothing. -/
theorem preinit_failure_skips_rest_witness :
    Ev.errBranchTrampoline ∈ (SFSE_Preinit ⟨false, true⟩ ⟨false, false⟩).2 ∧
    Ev.pmInit ∉ (SFSE_Preinit ⟨false, true⟩ ⟨false, false⟩).2 ∧
    Ev.pmInstallPreload ∉ (SFSE_Preinit ⟨false, true⟩ ⟨false, false⟩).2 ∧
    (SFSE_Preinit ⟨false, true⟩ ⟨false, false⟩).1.preinitRun = true ∧
    SFSE_Preinit ⟨true, true⟩ (SFSE_Preinit ⟨false, true⟩ ⟨false, false⟩).1 =
      ((SFSE_Preinit ⟨false, true⟩ ⟨false, false⟩).1, []) := by
  have h := (preinit_failure_skips_rest ⟨false, true⟩ ⟨false, false⟩ rfl).1 rfl
  exact ⟨h.1, h.2.1, h.2.2.1, h.2.2.2.1, h.2.2.2.2 ⟨true, true⟩⟩

/-- C9: `SFSE_Initialize` runs its full load sequence the first time the
command-line hook is called, even when `SFSE_Preinit` never ran or
returned early after a trampoline-creation failure (any `env`): its
run-once latch is independent of preinit's latch and of preinit's
success. -/
theorem initialize_independent_of_preinit {C : Type} (env : Env)
    (origC : Unit → C) (s : SFSEState) (hi : s.initRun = false) :
    ((cmdlineHook origC s).2.1 = loadSequence) ∧
    ((SFSE_Preinit env s).1.initRun = false) ∧
    ((cmdlineHook origC ((SFSE_Preinit env s).1)).2.1 = loadSequence) := by
  have hfst := SFSE_Preinit_fst env s
  refine ⟨?_, ?_, ?_⟩
  · simp [cmdlineHook, SFSE_Initialize, hi]
  · rw [hfst]; exact hi
  · rw [hfst]
    simp [cmdlineHook, SFSE_Initialize, hi]

/-- Witness for C9: the first command-line call performs the full load
sequence both when preinit never ran and after a failed preinit. -/
theorem initialize_independent_of_preinit_witness :
    ((cmdlineHook (fun _ => 42) ⟨false, false⟩).2.1 = loadSequence) ∧
    ((SFSE_Preinit ⟨false, true⟩ ⟨false, false⟩).1.initRun = false) ∧
    ((cmdlineHook (fun _ => 42)
        ((SFSE_Preinit ⟨false, true⟩ ⟨false, false⟩).1)).2.1 =
      loadSequence) :=
  initialize_independent_of_preinit ⟨false, true⟩ (fun _ => 42)
    ⟨false, false⟩ rfl

/-- Counterexample to C2 as stated: on an object pointer whose very first
dereference faults, `getObjectClassName` returns the source literal
`"<no rtti>"` (with a space), not the claimed sentinel `"<no-rtti>"`
(with a hyphen). -/
theorem getObjectClassName_sentinel_counterexample :
    getObjectClassNameTry faultMem 0 0 = none ∧
    getObjectClassName faultMem 0 0 = "<no rtti>" ∧
    getObjectClassName faultMem 0 0 ≠ "<no-rtti>" := by
  refine ⟨rfl, rfl, ?_⟩
  decide

/-- C2 (amended): for every object pointer for which the RTTI
pointer-chasing walk faults, or whose type-descriptor name does not start
with the expected mangling marker, `getObjectClassName` returns the
sentinel string `"<no rtti>"` and does not terminate the process (the
embedded function is total and the `__except` path yields the
sentinel). -/
theorem getObjectClassName_fault_sentinel (mem : RMem)
    (relocBase objBase : Nat) :
    (getObjectClassNameTry mem relocBase objBase = none →
      getObjectClassName mem relocBase objBase = "<no rtti>") ∧
    (∀ na b, rttiNameAddr mem relocBase objBase = some na →
      mem.byteAt na = some b → b ≠ 0x2E →
      getObjectClassName mem relocBase objBase = "<no rtti>") ∧
    (∀ na b', rttiNameAddr mem relocBase objBase = some na →
      mem.byteAt na = some 0x2E → mem.byteAt (na + 1) = some b' →
      b' ≠ 0x3F →
      getObjectClassName mem relocBase objBase = "<no rtti>") := by
  refine ⟨?_, ?_, ?_⟩
  · intro h
    simp [getObjectClassName, h]
  · intro na b hna hb hne
    simp [getObjectClassName, getObjectClassNameTry, hna, hb, hne]
  · intro na b' hna hb hb' hne
    simp [getObjectClassName, getObjectClassNameTry, hna, hb, hb', hne]

/-- Witness for C2's amended theorem: a concrete faulting pointer and a
concrete bad-marker descriptor both produce the sentinel. -/
theorem getObjectClassName_fault_sentinel_witness :
    getObjectClassName faultMem 5 7 = "<no rtti>" ∧
    getObjectClassName badMarkerMem 0x10000 0x1000 = "<no rtti>" :=
  ⟨(getObjectClassName_fault_sentinel faultMem 5 7).1 rfl,
   (getObjectClassName_fault_sentinel badMarkerMem 0x10000 0x1000).2.1
     0x14010 0x58 (by decide) (by decide) (by decide)⟩

theorem rttiScanNul_finds (mem : RMem) (na : Nat) :
    ∀ rem i j, j < rem →
      (∀ t, t < j → ∃ b, mem.byteAt (na + (i + t)) = some b ∧ b ≠ 0) →
      mem.byteAt (na + (i + j)) = some 0 →
      rttiScanNul mem na i rem = some (some (i + j)) := by
  intro rem
  induction rem with
  | zero => intro i j hj; omega
  | succ rem ih =>
    intro i j hj hprev hz
    cases j with
    | zero =>
      simp only [Nat.add_zero] at hz
      simp only [rttiScanNul, hz]
      simp
    | succ j =>
      obtain ⟨b, hb, hbne⟩ := hprev 0 (Nat.succ_pos j)
      simp only [Nat.add_zero] at hb
      simp only [rttiScanNul, hb, if_neg hbne]
      have he : i + (j + 1) = i + 1 + j := by omega
      rw [he] at hz ⊢
      exact ih (i + 1) j (by omega)
        (fun t ht => by
          have he' : i + 1 + t = i + (t + 1) := by omega
          rw [he']; exact hprev (t + 1) (by omega)) hz

/-- C7: for an object whose RTTI type-descriptor name is the
NUL-terminated string `".?AVFoo@@"` (marker `".?"`, namespace-mangling
marker `'V'` context, terminator at index 9, well within the
100-character cap), `getObjectClassName` returns `"Foo@@"` — the name
with its fixed 4-character mangling prefix removed. -/
theorem getObjectClassName_strips_mangling (mem : RMem)
    (relocBase objBase na : Nat)
    (hna : rttiNameAddr mem relocBase objBase = some na)
    (h0 : mem.byteAt na = some 0x2E)
    (h1 : mem.byteAt (na + 1) = some 0x3F)
    (h2 : mem.byteAt (na + 2) = some 0x41)
    (h3 : mem.byteAt (na + 3) = some 0x56)
    (h4 : mem.byteAt (na + 4) = some 0x46)
    (h5 : mem.byteAt (na + 5) = some 0x6F)
    (h6 : mem.byteAt (na + 6) = some 0x6F)
    (h7 : mem.byteAt (na + 7) = some 0x40)
    (h8 : mem.byteAt (na + 8) = some 0x40)
    (h9 : mem.byteAt (na + 9) = some 0) :
    getObjectClassName mem relocBase objBase = "Foo@@" := by
  have hscan : rttiScanNul mem na 0 100 = some (some 9) := by
    have h := rttiScanNul_finds mem na 100 0 9 (by omega)
      (fun t ht => by
        interval_cases t <;> simp only [Nat.zero_add] <;>
          first
          | exact ⟨0x2E, h0, by decide⟩
          | exact ⟨0x3F, by simpa using h1, by decide⟩
          | exact ⟨0x41, by simpa using h2, by decide⟩
          | exact ⟨0x56, by simpa using h3, by decide⟩
          | exact ⟨0x46, by simpa using h4, by decide⟩
          | exact ⟨0x6F, by simpa using h5, by decide⟩
          | exact ⟨0x6F, by simpa using h6, by decide⟩
          | exact ⟨0x40, by simpa using h7, by decide⟩
          | exact ⟨0x40, by simpa using h8, by decide⟩)
      (by simpa using h9)
    simpa using h
  have hstr : cstrBytes mem (na + 4) 5 = "Foo@@" := by
    simp only [cstrBytes, List.range_succ, List.range_zero, List.nil_append,
      List.map_append, List.map_cons, List.map_nil]
    norm_num [h4, h5, h6, h7, h8]
  simp only [getObjectClassName, getObjectClassNameTry, hna, h0, h1,
    Option.bind_eq_bind, Option.some_bind, hscan]
  norm_num
  rw [hstr]

/-- Witness for C7: the concrete `rttiMem` object decodes to `"Foo@@"`. -/
theorem getObjectClassName_strips_mangling_witness :
    getObjectClassName rttiMem 0x10000 0x1000 = "Foo@@" :=
  getObjectClassName_strips_mangling rttiMem 0x10000 0x1000 0x14010
    (by decide) (by decide) (by decide) (by decide) (by decide) (by decide)
    (by decide) (by decide) (by decide) (by decide) (by decide)

/-- C8: for every `(section, key)`, when the configuration file is absent
or the key is absent, `getConfigOption` returns the empty string and
`getConfigOption_u32` returns `false` without writing through its output
pointer; `getConfigOption_u32` returns `true` exactly when the looked-up
string is non-empty and the `%u` conversion on it succeeds (both embedded
operations are total, so neither crashes). -/
theorem getConfigOption_not_found (configPath : Option String)
    (ini : String → String → Option String) (sec key : String) :
    (configPath = none →
      getConfigOption configPath ini sec key = "" ∧
      getConfigOption_u32 configPath ini sec key = (false, none)) ∧
    (ini sec key = none →
      getConfigOption configPath ini sec key = "" ∧
      getConfigOption_u32 configPath ini sec key = (false, none)) ∧
    ((getConfigOption_u32 configPath ini sec key).1 = true ↔
      (getConfigOption configPath ini sec key ≠ "" ∧
        (scanfU (getConfigOption configPath ini sec key)).isSome = true)) := by
  refine ⟨?_, ?_, ?_⟩
  · intro h
    subst h
    exact ⟨rfl, rfl⟩
  · intro h
    cases configPath with
    | none => exact ⟨rfl, rfl⟩
    | some p =>
      have hopt : getConfigOption (some p) ini sec key = "" := by
        simp [getConfigOption, h]
      refine ⟨hopt, ?_⟩
      simp only [getConfigOption_u32, hopt]
      decide
  · unfold getConfigOption_u32
    by_cases hd : (getConfigOption configPath ini sec key).isEmpty
    · have he : getConfigOption configPath ini sec key = "" :=
        (String.isEmpty_iff _).mp hd
      rw [he]
      simp only [he] at hd ⊢
      constructor
      · intro hfalse
        exact absurd hfalse (by decide)
      · intro hfalse
        exact absurd hfalse.1 (by simp)
    · have hne : getConfigOption configPath ini sec key ≠ "" := by
        intro he; rw [he] at hd; exact hd rfl
      cases hs : scanfU (getConfigOption configPath ini sec key) with
      | none => simp [hd, hs, hne]
      | some v => simp [hd, hs, hne]

/-- Witness for C8: a missing path, a missing key, and a present numeric
value on concrete inputs. -/
theorem getConfigOption_not_found_witness :
    (getConfigOption none (fun _ _ => none) "Loader" "Priority" = "" ∧
      getConfigOption_u32 none (fun _ _ => none) "Loader" "Priority" =
        (false, none)) ∧
    (getConfigOption (some "c") (fun _ _ => none) "Loader" "Priority" = "" ∧
      getConfigOption_u32 (some "c") (fun _ _ => none) "Loader" "Priority" =
        (false, none)) ∧
    ((getConfigOption_u32 (some "c") (fun _ _ => some "123") "Loader"
        "Priority").1 = true ↔
      (getConfigOption (some "c") (fun _ _ => some "123") "Loader"
          "Priority" ≠ "" ∧
        (scanfU (getConfigOption (some "c") (fun _ _ => some "123") "Loader"
          "Priority")).isSome = true)) :=
  ⟨(getConfigOption_not_found none (fun _ _ => none) "Loader" "Priority").1
      rfl,
   (getConfigOption_not_found (some "c") (fun _ _ => none) "Loader"
      "Priority").2.1 rfl,
   (getConfigOption_not_found (some "c") (fun _ _ => some "123") "Loader"
      "Priority").2.2⟩

end SFSE
